import Mathlib

/-!
Shallow embedding of the `CalendarWeek` week-pager component
(`src/components/CalendarWeek`, React Native).

Dates are modelled as a civil day number (days since 1970-01-01) together
with a time-of-day in milliseconds; `new Date(y, m, d + i)` normalizes
day-of-month overflow, which corresponds to plain integer arithmetic on the
day number.  The component state bundles the React state and refs of
`CalendarWeekComponent`; each event handler is a function from state (and
the event payload) to a new state plus the callbacks / imperative scroll
commands it emits.
-/

namespace CalendarWeek

/-- Model of a JavaScript `Date`: civil day number (days since 1970-01-01,
which was a Thursday) plus milliseconds past local midnight. -/
structure JsDate where
  day : ℤ
  msOfDay : ℤ
deriving DecidableEq, Repr

/-- Civil-calendar day number for year `y`, month `m` (1-12), day `d`
(days since 1970-01-01), the standard era-based conversion. -/
def daysFromCivil (y m d : ℤ) : ℤ :=
  let y2 := if m ≤ 2 then y - 1 else y
  let era := Int.fdiv y2 400
  let yoe := y2 - era * 400
  let mp := (m + 9) % 12
  let doy := Int.fdiv (153 * mp + 2) 5 + d - 1
  let doe := yoe * 365 + Int.fdiv yoe 4 - Int.fdiv yoe 100 + doy
  era * 146097 + doe - 719468

/-- The JS `new Date(y, m0, d)` value at local midnight (`m` here is 1-based). -/
def mkDate (y m d : ℤ) : JsDate :=
  ⟨daysFromCivil y m d, 0⟩

/-- JS `Date.getDay()`: 0 = Sunday … 6 = Saturday.  1970-01-01 was a Thursday. -/
def dayOfWeek (n : ℤ) : ℤ :=
  (n + 4) % 7

/-- Key playing the role of `Date.getTime()`: injective in (day, msOfDay). -/
def timeKey (t : JsDate) : ℤ :=
  t.day * 86400000 + t.msOfDay

/-- JS `d.setDate(d.getDate() + k)`: shift by `k` civil days, keeping the
time of day. -/
def addDays (t : JsDate) (k : ℤ) : JsDate :=
  ⟨t.day + k, t.msOfDay⟩

/-- Source helper `isSameDay`: compares year, month and day-of-month, i.e.
the civil day. -/
def isSameDay (d1 d2 : JsDate) : Bool :=
  d1.day == d2.day

/-- Source helper `getWeekStart`: midnight of the given date, moved back by
`getDay()` days to the Sunday of its week. -/
def getWeekStart (date : JsDate) : JsDate :=
  ⟨date.day - dayOfWeek date.day, 0⟩

/-- The `today` memo: copy of the `today` prop with hours/minutes/seconds/ms
zeroed. -/
def normalizeToday (t : JsDate) : JsDate :=
  ⟨t.day, 0⟩

/-- `WEEKS_BUFFER = 5`. -/
def WEEKS_BUFFER : ℤ := 5

/-- `TOTAL_WEEKS = WEEKS_BUFFER * 2 + 1 = 11`. -/
def TOTAL_WEEKS : ℤ := WEEKS_BUFFER * 2 + 1

/-- `CENTER_INDEX = WEEKS_BUFFER = 5`. -/
def CENTER_INDEX : ℤ := WEEKS_BUFFER

/-- The `weeks` memo: for `i` from `-WEEKS_BUFFER` to `WEEKS_BUFFER`, push
`anchorWeekStart + i*7` days.  Reindexed by `j = i + WEEKS_BUFFER`, entry `j`
is `anchorWeekStart + (j - WEEKS_BUFFER)*7` days. -/
def weeks (anchorWeekStart : JsDate) : List JsDate :=
  (List.range 11).map (fun j => addDays anchorWeekStart (((j : ℤ) - WEEKS_BUFFER) * 7))

/-- Closed form of entry `i` of the `weeks` array. -/
def weekAt (anchorWeekStart : JsDate) (i : ℤ) : JsDate :=
  addDays anchorWeekStart ((i - WEEKS_BUFFER) * 7)

/-- JS array subscript `weeks[index]` with an `Int` index: `undefined`
(`none`) outside `[0, 10]`. -/
def weeksGetJs (anchorWeekStart : JsDate) (i : ℤ) : Option JsDate :=
  if 0 ≤ i then (weeks anchorWeekStart).get? i.toNat else none

/-- The component state: React state (`anchorWeekStart`, `containerWidth`)
together with the mutable refs (`currentIndexRef`, `hasInitialized`,
`needsRecenter`, `lastSelectedWeekRef`). -/
structure PagerState where
  anchorWeekStart : JsDate
  containerWidth : ℚ
  currentIndexRef : ℤ
  hasInitialized : Bool
  needsRecenter : Bool
  lastSelectedWeekRef : ℤ
deriving DecidableEq, Repr

/-- An imperative `scrollRef.current?.scrollTo({ x, animated })` command. -/
structure ScrollCmd where
  x : ℚ
  animated : Bool
deriving DecidableEq, Repr

/-- Resolution of the `selectedDate` prop: `undefined` (outer `none`)
defaults to `today`; an explicit `null` (inner `none`) stays `null`. -/
def resolveSelectedDate (selectedDateProp : Option (Option JsDate)) (today : JsDate) :
    Option JsDate :=
  match selectedDateProp with
  | some v => v
  | none => some today

/-- Initial component state: `anchorWeekStart = getWeekStart(selectedDate || today)`,
`containerWidth = SCREEN_WIDTH`, `currentIndexRef = CENTER_INDEX`, the
`hasInitialized` and `needsRecenter` refs start `false`, and
`lastSelectedWeekRef = getWeekStart(selectedDate || today).getTime()`. -/
def initState (screenWidth : ℚ) (selectedDateProp : Option (Option JsDate))
    (todayProp : JsDate) : PagerState :=
  let today := normalizeToday todayProp
  let selectedDate := resolveSelectedDate selectedDateProp today
  { anchorWeekStart := getWeekStart (selectedDate.getD today)
    containerWidth := screenWidth
    currentIndexRef := CENTER_INDEX
    hasInitialized := false
    needsRecenter := false
    lastSelectedWeekRef := timeKey (getWeekStart (selectedDate.getD today)) }

/-- `Math.round(x / containerWidth)`.  When `containerWidth = 0` the JS
quotient is `NaN` or `±Infinity`, every range test below fails, and both
scroll handlers are no-ops; this is modelled by `none`. -/
def scrollIndex (s : PagerState) (x : ℚ) : Option ℤ :=
  if s.containerWidth = 0 then none else some (round (x / s.containerWidth))

/-- `handleScroll`: derive `index = round(x / containerWidth)`; if it differs
from `currentIndexRef` and `0 ≤ index < weeks.length`, store it and emit
`onWeekChange(weeks[index])`.  Returns the new state and the emitted
`onWeekChange` argument, if any. -/
def handleScroll (s : PagerState) (x : ℚ) : PagerState × Option JsDate :=
  match scrollIndex s x with
  | none => (s, none)
  | some index =>
    if index ≠ s.currentIndexRef ∧ 0 ≤ index ∧ index < TOTAL_WEEKS then
      ({ s with currentIndexRef := index }, weeksGetJs s.anchorWeekStart index)
    else (s, none)

/-- The `onScroll` prop of the ScrollView is `handleScroll` regardless of
`disabled`; `scrollEnabled={!disabled}` only blocks new gestures, not event
delivery from residual momentum. -/
def onScroll (disabled : Bool) (s : PagerState) (x : ℚ) : PagerState × Option JsDate :=
  handleScroll s x

/-- `handleScrollEnd`: derive `index`; when `index ≤ 1` or
`index ≥ TOTAL_WEEKS - 2` and `weeks[index]` is defined, set
`needsRecenter := true`, reset `currentIndexRef := CENTER_INDEX`, and set
`anchorWeekStart := weeks[index]`. -/
def handleScrollEnd (s : PagerState) (x : ℚ) : PagerState :=
  match scrollIndex s x with
  | none => s
  | some index =>
    if index ≤ 1 ∨ TOTAL_WEEKS - 2 ≤ index then
      match weeksGetJs s.anchorWeekStart index with
      | some visibleWeek =>
        { s with needsRecenter := true
                 currentIndexRef := CENTER_INDEX
                 anchorWeekStart := visibleWeek }
      | none => s
    else s

/-- The recenter `useEffect`: once the anchor update has committed, if
`needsRecenter` is set, emit a non-animated jump to
`containerWidth * CENTER_INDEX` and clear the flag. -/
def recenterEffect (s : PagerState) : PagerState × Option ScrollCmd :=
  if s.needsRecenter then
    ({ s with needsRecenter := false }, some ⟨s.containerWidth * (CENTER_INDEX : ℤ), false⟩)
  else (s, none)

/-- A settle event end-to-end: `onMomentumScrollEnd` followed by the recenter
effect that React runs after the state update commits. -/
def settle (s : PagerState) (x : ℚ) : PagerState × Option ScrollCmd :=
  recenterEffect (handleScrollEnd s x)

/-- The condition under which `handleScrollEnd` actually recenters: a defined
index in the edge zone with `weeks[index]` defined. -/
def recenterTriggered (s : PagerState) (x : ℚ) : Bool :=
  match scrollIndex s x with
  | none => false
  | some index =>
    decide (index ≤ 1 ∨ TOTAL_WEEKS - 2 ≤ index) && decide (0 ≤ index ∧ index < TOTAL_WEEKS)

/-- The selection-sync `useEffect`: on `null` selected date it returns at
once; otherwise it recenters exactly when `getWeekStart(selectedDate).getTime()`
differs from `lastSelectedWeekRef`. -/
def selectionSync (s : PagerState) (selectedDate : Option JsDate) : PagerState :=
  match selectedDate with
  | none => s
  | some d =>
    let selectedWeekStart := getWeekStart d
    let selectedWeekTime := timeKey selectedWeekStart
    if selectedWeekTime ≠ s.lastSelectedWeekRef then
      { s with lastSelectedWeekRef := selectedWeekTime
               needsRecenter := true
               currentIndexRef := CENTER_INDEX
               anchorWeekStart := selectedWeekStart }
    else s

/-- `handleLayout`: if the measured width differs from `containerWidth`,
record it; additionally, when `hasInitialized` is still false, schedule the
deferred non-animated jump to `width * CENTER_INDEX` (its timeout also sets
`hasInitialized`, folded in here as the command completing). -/
def handleLayout (s : PagerState) (width : ℚ) : PagerState × Option ScrollCmd :=
  if width ≠ s.containerWidth then
    if s.hasInitialized then
      ({ s with containerWidth := width }, none)
    else
      ({ s with containerWidth := width, hasInitialized := true },
        some ⟨width * (CENTER_INDEX : ℤ), false⟩)
  else (s, none)

/-- `DayColumn.handlePress` chained through `handleSelectDate`: the cell press
reaches `onSelectDate(date)` only when not disabled. -/
def handlePress (disabled : Bool) (date : JsDate) : Option JsDate :=
  if disabled then none else some date

/-- AnchorWeekStart normalization invariant: midnight and a Sunday. -/
def normalizedWeekStart (t : JsDate) : Prop :=
  t.msOfDay = 0 ∧ dayOfWeek t.day = 0

instance (t : JsDate) : Decidable (normalizedWeekStart t) := by
  unfold normalizedWeekStart; infer_instance

/-- Concrete date 2024-06-02, a Sunday, used as sample anchor. -/
def anchor0 : JsDate := mkDate 2024 6 2

/-- Sample mounted state: screen width 390, no `selectedDate` prop, `today`
prop 2024-06-02; so the initial anchor is 2024-06-02 itself. -/
def state0 : PagerState := initState 390 none anchor0

/-! ### Basic lemmas about the week window -/

theorem weeks_eq (a : JsDate) :
    weeks a = [weekAt a 0, weekAt a 1, weekAt a 2, weekAt a 3, weekAt a 4,
      weekAt a 5, weekAt a 6, weekAt a 7, weekAt a 8, weekAt a 9, weekAt a 10] := rfl

theorem weeks_length (a : JsDate) : (weeks a).length = 11 := rfl

theorem weeks_get?_eq (a : JsDate) (j : ℕ) :
    (weeks a).get? j = if j < 11 then some (weekAt a j) else none := by
  rcases Nat.lt_or_ge j 11 with h | h
  · rw [if_pos h]
    interval_cases j <;> rfl
  · rw [if_neg (by omega)]
    exact List.get?_eq_none.2 (by simpa [weeks_length] using h)

theorem weeksGetJs_eq (a : JsDate) (i : ℤ) :
    weeksGetJs a i = if 0 ≤ i ∧ i < 11 then some (weekAt a i) else none := by
  unfold weeksGetJs
  by_cases h0 : 0 ≤ i
  · rw [if_pos h0, weeks_get?_eq]
    by_cases h1 : i < 11
    · rw [if_pos (by omega), if_pos ⟨h0, h1⟩]
      congr 1
      unfold weekAt
      congr 1
      omega
    · rw [if_neg (by omega), if_neg (by tauto)]
  · rw [if_neg h0, if_neg (by tauto)]

theorem weekAt_center (a : JsDate) : weekAt a CENTER_INDEX = a := by
  simp [weekAt, addDays, CENTER_INDEX, WEEKS_BUFFER]

/-! ### Helper lemmas about scroll indices and normalization -/

theorem round_390_div_390 : round ((390 : ℚ) / 390) = 1 := by
  norm_num [round_eq]

theorem round_780_div_390 : round ((780 : ℚ) / 390) = 2 := by
  norm_num [round_eq]

theorem scrollIndex_of_width (s : PagerState) (x : ℚ) (hw : s.containerWidth ≠ 0) :
    scrollIndex s x = some (round (x / s.containerWidth)) := by
  simp [scrollIndex, hw]

theorem scrollIndex_390 (s : PagerState) (hw : s.containerWidth = 390) :
    scrollIndex s 390 = some 1 := by
  rw [scrollIndex_of_width s 390 (by rw [hw]; norm_num), hw, round_390_div_390]

theorem scrollIndex_780 (s : PagerState) (hw : s.containerWidth = 390) :
    scrollIndex s 780 = some 2 := by
  rw [scrollIndex_of_width s 780 (by rw [hw]; norm_num), hw, round_780_div_390]

theorem scrollIndex_state0_390 : scrollIndex state0 390 = some 1 :=
  scrollIndex_390 state0 rfl

theorem scrollIndex_state0_780 : scrollIndex state0 780 = some 2 :=
  scrollIndex_780 state0 rfl

theorem recenterTriggered_state0_390 : recenterTriggered state0 390 = true := by
  simp only [recenterTriggered, scrollIndex_state0_390]
  decide

/-- When the settle index lies in the edge zone and in range, `handleScrollEnd`
performs exactly the recenter state update. -/
theorem handleScrollEnd_recenter (s : PagerState) (i : ℤ) (x : ℚ)
    (hidx : scrollIndex s x = some i) (hzone : i ≤ 1 ∨ TOTAL_WEEKS - 2 ≤ i)
    (hrange : 0 ≤ i ∧ i < 11) :
    handleScrollEnd s x =
      { s with needsRecenter := true
               currentIndexRef := CENTER_INDEX
               anchorWeekStart := weekAt s.anchorWeekStart i } := by
  simp only [handleScrollEnd, hidx, weeksGetJs_eq]
  rw [if_pos hzone, if_pos hrange]

theorem normalizedWeekStart_getWeekStart (d : JsDate) :
    normalizedWeekStart (getWeekStart d) := by
  refine ⟨rfl, ?_⟩
  simp only [getWeekStart, dayOfWeek]
  omega

theorem getWeekStart_eq_of_isSameDay (d1 d2 : JsDate) (h : isSameDay d1 d2 = true) :
    getWeekStart d1 = getWeekStart d2 := by
  have hday : d1.day = d2.day := by simpa [isSameDay] using h
  simp [getWeekStart, hday]

/-! ### Claim theorems -/

/-- C2: for every anchor, the materialized `weeks` array has `2K+1 = 11`
entries, entry `i` equals `anchorWeekStart + (i - K) * 7` days, and adjacent
entries differ by exactly 7 days. -/
theorem weeks_window_shape (a : JsDate) (i : ℕ) (hi : i < 11) :
    (weeks a).length = 11 ∧
    (weeks a).get? i = some (addDays a (((i : ℤ) - WEEKS_BUFFER) * 7)) ∧
    (∀ u v, (weeks a).get? i = some u → (weeks a).get? (i + 1) = some v →
      v.day - u.day = 7 ∧ v.msOfDay = u.msOfDay) := by
  refine ⟨weeks_length a, ?_, ?_⟩
  · rw [weeks_get?_eq, if_pos hi]
    rfl
  · intro u v hu hv
    rw [weeks_get?_eq, if_pos hi] at hu
    rw [weeks_get?_eq] at hv
    by_cases h1 : i + 1 < 11
    · rw [if_pos h1] at hv
      have hu2 : u = weekAt a i := (Option.some.inj hu).symm
      have hv2 : v = weekAt a (i + 1) := (Option.some.inj hv).symm
      subst hu2; subst hv2
      refine ⟨?_, rfl⟩
      simp only [weekAt, addDays]
      ring
    · rw [if_neg h1] at hv
      exact absurd hv (by simp)

/-- C2 witness: the window shape evaluated at anchor 2024-06-02, index 3. -/
theorem weeks_window_shape_witness :
    (3 : ℕ) < 11 ∧
      (weeks anchor0).get? 3 = some (addDays anchor0 (((3 : ℤ) - WEEKS_BUFFER) * 7)) :=
  ⟨by decide, (weeks_window_shape anchor0 3 (by decide)).2.1⟩

/-- C4 counterexample: with anchor 2024-06-02 the spec scenario values are
wrong: `weeks[0]` is not 2024-04-21 and `weeks[10]` is not 2024-08-11 (those
are 6 and 10 weeks from the anchor; the buffer radius is 5 weeks). -/
theorem scenarioA_as_stated_false :
    ¬((weeks (mkDate 2024 6 2)).get? 5 = some (mkDate 2024 6 2) ∧
      (weeks (mkDate 2024 6 2)).get? 0 = some (mkDate 2024 4 21) ∧
      (weeks (mkDate 2024 6 2)).get? 10 = some (mkDate 2024 8 11)) := by
  decide

/-- C4 amended: with K=5 and anchorWeekStart = 2024-06-02 (a Sunday),
`weeks[5] = 2024-06-02`, `weeks[0] = 2024-04-28`, `weeks[10] = 2024-07-07`. -/
theorem scenarioA_amended :
    dayOfWeek (mkDate 2024 6 2).day = 0 ∧
    (weeks (mkDate 2024 6 2)).get? 5 = some (mkDate 2024 6 2) ∧
    (weeks (mkDate 2024 6 2)).get? 0 = some (mkDate 2024 4 28) ∧
    (weeks (mkDate 2024 6 2)).get? 10 = some (mkDate 2024 7 7) := by
  decide

/-- C9: when the pager is disabled a day-cell press never reaches
`onSelectDate` (and when enabled it passes the pressed date through), while
the scroll-progress handler is wired independently of `disabled`, so
week-change reporting is not suppressed. -/
theorem disabled_press_inert (s : PagerState) (x : ℚ) (d : JsDate) :
    handlePress true d = none ∧
    handlePress false d = some d ∧
    onScroll true s x = handleScroll s x ∧
    onScroll true s x = onScroll false s x :=
  ⟨rfl, rfl, rfl, rfl⟩

/-- C10: with an explicitly `null` `selectedDate` prop the selection-sync
effect returns immediately: the whole state (anchor, last-synced week key,
visible index, pending-recenter flag) is unchanged and nothing is scheduled. -/
theorem null_selected_date_noop (s : PagerState) (t : JsDate) :
    resolveSelectedDate (some none) t = none ∧
    selectionSync s none = s ∧
    (selectionSync s none).anchorWeekStart = s.anchorWeekStart ∧
    (selectionSync s none).lastSelectedWeekRef = s.lastSelectedWeekRef ∧
    (selectionSync s none).currentIndexRef = s.currentIndexRef ∧
    (selectionSync s none).needsRecenter = s.needsRecenter :=
  ⟨rfl, rfl, rfl, rfl, rfl, rfl⟩

/-- C1: with container width 390, a scroll settling at offset 390 (index 1,
in the recenter zone) makes the recenter set `anchorWeekStart` to the week
previously at index 1, reset the visible index to `K = 5`, and emit a
non-animated imperative jump to `390 * 5 = 1950`; and after any triggered
recenter settles, `weeks[K] = anchorWeekStart` and the visible index is `K`. -/
theorem edge_recenter_scenarioC (s : PagerState) (x : ℚ) (hw : s.containerWidth = 390) :
    ((settle s 390).1.anchorWeekStart = weekAt s.anchorWeekStart 1 ∧
      (settle s 390).1.currentIndexRef = CENTER_INDEX ∧
      (settle s 390).2 = some ⟨1950, false⟩) ∧
    (recenterTriggered s x = true →
      weekAt (settle s x).1.anchorWeekStart CENTER_INDEX = (settle s x).1.anchorWeekStart ∧
      (settle s x).1.currentIndexRef = CENTER_INDEX) := by
  constructor
  · have hidx := scrollIndex_390 s hw
    have h1 := handleScrollEnd_recenter s 1 390 hidx (by norm_num) (by norm_num)
    have hcmd : (390 : ℚ) * ((CENTER_INDEX : ℤ) : ℚ) = 1950 := by
      norm_num [CENTER_INDEX, WEEKS_BUFFER]
    simp [settle, h1, recenterEffect, hw, hcmd]
  · intro htrig
    simp only [recenterTriggered] at htrig
    rcases hsi : scrollIndex s x with _ | i
    · rw [hsi] at htrig; simp at htrig
    · rw [hsi] at htrig
      simp only [Bool.and_eq_true, decide_eq_true_eq] at htrig
      have hrange : 0 ≤ i ∧ i < 11 := by
        have := htrig.2
        simp only [TOTAL_WEEKS, WEEKS_BUFFER] at this
        omega
      have h1 := handleScrollEnd_recenter s i x hsi htrig.1 hrange
      refine ⟨weekAt_center _, ?_⟩
      simp [settle, h1, recenterEffect]

/-- C1 witness: the recenter evaluated at the sample state with width 390,
settling at offset 390; the recenter-trigger hypothesis holds there. -/
theorem edge_recenter_scenarioC_witness :
    ((settle state0 390).1.anchorWeekStart = weekAt state0.anchorWeekStart 1 ∧
      (settle state0 390).2 = some ⟨1950, false⟩) ∧
    (settle state0 390).1.currentIndexRef = CENTER_INDEX :=
  ⟨⟨(edge_recenter_scenarioC state0 390 rfl).1.1,
    (edge_recenter_scenarioC state0 390 rfl).1.2.2⟩,
    ((edge_recenter_scenarioC state0 390 rfl).2 recenterTriggered_state0_390).2⟩

/-- C3: with width 390, settling at derived index 1 triggers a recenter while
settling at derived index 2 (offset 780) does not; in the latter case the
scroll handler reports `weeks[2]` exactly once. -/
theorem boundary_scenarioB (s : PagerState) (hw : s.containerWidth = 390)
    (hidx : s.currentIndexRef = CENTER_INDEX) (hnr : s.needsRecenter = false) :
    (handleScrollEnd s 390).needsRecenter = true ∧
    (handleScrollEnd s 390).anchorWeekStart = weekAt s.anchorWeekStart 1 ∧
    handleScrollEnd s 780 = s ∧
    settle s 780 = (s, none) ∧
    handleScroll s 780 = ({ s with currentIndexRef := 2 }, some (weekAt s.anchorWeekStart 2)) ∧
    (handleScroll { s with currentIndexRef := 2 } 780).2 = none := by
  have h390 := handleScrollEnd_recenter s 1 390 (scrollIndex_390 s hw) (by norm_num) (by norm_num)
  have h780 : handleScrollEnd s 780 = s := by
    simp only [handleScrollEnd, scrollIndex_780 s hw]
    rw [if_neg (by norm_num [TOTAL_WEEKS, WEEKS_BUFFER])]
  refine ⟨by rw [h390], by rw [h390], h780, ?_, ?_, ?_⟩
  · simp [settle, h780, recenterEffect, hnr]
  · simp only [handleScroll, scrollIndex_780 s hw, weeksGetJs_eq]
    rw [if_pos ⟨by rw [hidx]; decide, by norm_num, by norm_num [TOTAL_WEEKS, WEEKS_BUFFER]⟩,
      if_pos (by norm_num)]
  · have hw2 : ({ s with currentIndexRef := 2 } : PagerState).containerWidth = 390 := hw
    simp only [handleScroll, scrollIndex_780 _ hw2]
    rw [if_neg (by simp)]

/-- C3 witness: the boundary behavior evaluated at the sample state. -/
theorem boundary_scenarioB_witness :
    (handleScrollEnd state0 390).needsRecenter = true ∧
    settle state0 780 = (state0, none) ∧
    (handleScroll state0 780).2 = some (weekAt state0.anchorWeekStart 2) :=
  ⟨(boundary_scenarioB state0 rfl rfl rfl).1,
    (boundary_scenarioB state0 rfl rfl rfl).2.2.2.1,
    by rw [(boundary_scenarioB state0 rfl rfl rfl).2.2.2.2.1]⟩

/-- C5: the selection-sync effect recenters exactly when the selected date's
week start differs from the last synced week key; it is idempotent for a
repeated date, and a distinct date value denoting the same calendar day
(the model of a referentially different `Date` object) causes no further
recenter, because the guard compares week keys. -/
theorem selection_sync_guard (s : PagerState) (d d2 : JsDate) :
    (timeKey (getWeekStart d) ≠ s.lastSelectedWeekRef →
      selectionSync s (some d) =
        { s with lastSelectedWeekRef := timeKey (getWeekStart d)
                 needsRecenter := true
                 currentIndexRef := CENTER_INDEX
                 anchorWeekStart := getWeekStart d }) ∧
    (timeKey (getWeekStart d) = s.lastSelectedWeekRef → selectionSync s (some d) = s) ∧
    selectionSync (selectionSync s (some d)) (some d) = selectionSync s (some d) ∧
    (isSameDay d d2 = true →
      selectionSync (selectionSync s (some d)) (some d2) = selectionSync s (some d)) := by
  have hpos : timeKey (getWeekStart d) ≠ s.lastSelectedWeekRef →
      selectionSync s (some d) =
        { s with lastSelectedWeekRef := timeKey (getWeekStart d)
                 needsRecenter := true
                 currentIndexRef := CENTER_INDEX
                 anchorWeekStart := getWeekStart d } := by
    intro h
    simp only [selectionSync]
    rw [if_pos h]
  have hneg : timeKey (getWeekStart d) = s.lastSelectedWeekRef →
      selectionSync s (some d) = s := by
    intro h
    simp only [selectionSync]
    rw [if_neg (by simp [h])]
  have hsecond : ∀ d3, getWeekStart d3 = getWeekStart d →
      selectionSync (selectionSync s (some d)) (some d3) = selectionSync s (some d) := by
    intro d3 h3
    by_cases h : timeKey (getWeekStart d) ≠ s.lastSelectedWeekRef
    · rw [hpos h]
      simp only [selectionSync, h3]
      rw [if_neg (by simp)]
    · rw [not_not] at h
      rw [hneg h]
      simp only [selectionSync, h3]
      rw [if_neg (by simp [h])]
  exact ⟨hpos, hneg, hsecond d rfl,
    fun hsame => hsecond d2 (getWeekStart_eq_of_isSameDay d d2 hsame).symm⟩

/-- C5 witness: scenario D (select 2024-07-04 while the anchor week is that
of 2024-06-02) recenters, and scenario E (a different value for the same
calendar day, here 01:00 on 2024-07-04) is then a no-op. -/
theorem selection_sync_guard_witness :
    selectionSync state0 (some (mkDate 2024 7 4)) =
      { state0 with lastSelectedWeekRef := timeKey (getWeekStart (mkDate 2024 7 4))
                    needsRecenter := true
                    currentIndexRef := CENTER_INDEX
                    anchorWeekStart := getWeekStart (mkDate 2024 7 4) } ∧
    selectionSync (selectionSync state0 (some (mkDate 2024 7 4)))
        (some ⟨(mkDate 2024 7 4).day, 3600000⟩) =
      selectionSync state0 (some (mkDate 2024 7 4)) :=
  ⟨(selection_sync_guard state0 (mkDate 2024 7 4) (mkDate 2024 7 4)).1 (by decide),
    (selection_sync_guard state0 (mkDate 2024 7 4)
      ⟨(mkDate 2024 7 4).day, 3600000⟩).2.2.2 (by decide)⟩

/-- C6: a scroll-progress event reports `onWeekChange(weeks[index])` exactly
when the derived index differs from the stored index and lies in `[0, 2K]`;
otherwise (including any out-of-range index) the state is unchanged and
nothing is reported — and the handler is a total function, so no error is
possible. -/
theorem scroll_progress_report (s : PagerState) (x : ℚ) (hw : s.containerWidth ≠ 0) :
    ((round (x / s.containerWidth) ≠ s.currentIndexRef ∧ 0 ≤ round (x / s.containerWidth) ∧
        round (x / s.containerWidth) < TOTAL_WEEKS) →
      handleScroll s x = ({ s with currentIndexRef := round (x / s.containerWidth) },
        some (weekAt s.anchorWeekStart (round (x / s.containerWidth))))) ∧
    (¬(round (x / s.containerWidth) ≠ s.currentIndexRef ∧ 0 ≤ round (x / s.containerWidth) ∧
        round (x / s.containerWidth) < TOTAL_WEEKS) →
      handleScroll s x = (s, none)) := by
  have hsi := scrollIndex_of_width s x hw
  constructor
  · intro hcond
    simp only [handleScroll, hsi]
    rw [if_pos hcond, weeksGetJs_eq,
      if_pos ⟨hcond.2.1, by have := hcond.2.2; simp only [TOTAL_WEEKS, WEEKS_BUFFER] at this; omega⟩]
  · intro hcond
    simp only [handleScroll, hsi]
    rw [if_neg hcond]

/-- C6 witness: at the sample state (width 390, stored index 5) a scroll
event at offset 780 reports the week at index 2. -/
theorem scroll_progress_report_witness :
    handleScroll state0 780 =
      ({ state0 with currentIndexRef := 2 }, some (weekAt state0.anchorWeekStart 2)) := by
  have hr : round ((780 : ℚ) / state0.containerWidth) = 2 := round_780_div_390
  have h := (scroll_progress_report state0 780 (by decide)).1
  rw [hr] at h
  exact h (by decide)

/-- C7 counterexample: the container width state starts at the screen width
(here 390), not at 0, before any layout event; and a first layout measuring
that same width records nothing and schedules no jump. -/
theorem width_zero_before_layout_false :
    (initState 390 none (mkDate 2024 6 2)).containerWidth = 390 ∧
    ((390 : ℚ) ≠ 0) ∧
    handleLayout (initState 390 none (mkDate 2024 6 2)) 390 =
      (initState 390 none (mkDate 2024 6 2), none) := by
  refine ⟨rfl, by decide, ?_⟩
  simp only [handleLayout]
  rw [if_neg (by simp [initState])]

/-- C7 amended: the container width starts at the screen width; a layout
event records the measured width only when it differs from the current one,
and schedules the one-time non-animated jump to `width * K` only while the
initialization flag is unset; once it is set, later layout events never
re-schedule the jump. -/
theorem layout_measurement_behavior (s : PagerState) (width sw : ℚ)
    (p : Option (Option JsDate)) (t : JsDate) :
    (initState sw p t).containerWidth = sw ∧
    (width = s.containerWidth → handleLayout s width = (s, none)) ∧
    (width ≠ s.containerWidth → s.hasInitialized = false →
      handleLayout s width =
        ({ s with containerWidth := width, hasInitialized := true },
          some ⟨width * (CENTER_INDEX : ℤ), false⟩)) ∧
    (width ≠ s.containerWidth → s.hasInitialized = true →
      handleLayout s width = ({ s with containerWidth := width }, none)) := by
  refine ⟨rfl, ?_, ?_, ?_⟩
  · intro h
    simp only [handleLayout]
    rw [if_neg (by simp [h])]
  · intro hne hinit
    simp only [handleLayout, hinit]
    rw [if_pos hne]
    simp
  · intro hne hinit
    simp only [handleLayout, hinit]
    rw [if_pos hne]
    simp

/-- C7 amended witness: a layout at the sample state measuring 400 records
the width and schedules the jump to `400 * 5`. -/
theorem layout_measurement_behavior_witness :
    handleLayout state0 400 =
      ({ state0 with containerWidth := 400, hasInitialized := true },
        some ⟨400 * (CENTER_INDEX : ℤ), false⟩) :=
  (layout_measurement_behavior state0 400 390 none anchor0).2.2.1 (by decide) rfl

/-- C8: the anchor week start is always midnight-normalized with weekday
Sunday: it holds at initialization and is preserved by the edge recenter and
by the external selection change (the only operations that mutate it). -/
theorem anchor_week_start_normalized (sw : ℚ) (p : Option (Option JsDate)) (t : JsDate)
    (s : PagerState) (x : ℚ) (sel : Option JsDate) :
    normalizedWeekStart (initState sw p t).anchorWeekStart ∧
    (normalizedWeekStart s.anchorWeekStart →
      normalizedWeekStart (handleScrollEnd s x).anchorWeekStart) ∧
    (normalizedWeekStart s.anchorWeekStart →
      normalizedWeekStart (selectionSync s sel).anchorWeekStart) := by
  refine ⟨normalizedWeekStart_getWeekStart _, ?_, ?_⟩
  · intro hs
    rcases hsi : scrollIndex s x with _ | i
    · simpa [handleScrollEnd, hsi] using hs
    · simp only [handleScrollEnd, hsi, weeksGetJs_eq]
      by_cases hzone : i ≤ 1 ∨ TOTAL_WEEKS - 2 ≤ i
      · rw [if_pos hzone]
        by_cases hrange : 0 ≤ i ∧ i < 11
        · rw [if_pos hrange]
          obtain ⟨hms, hdw⟩ := hs
          refine ⟨hms, ?_⟩
          simp only [weekAt, addDays, dayOfWeek] at hdw ⊢
          omega
        · rw [if_neg hrange]
          exact hs
      · rw [if_neg hzone]
        exact hs
  · intro hs
    rcases sel with _ | d
    · exact hs
    · simp only [selectionSync]
      by_cases h : timeKey (getWeekStart d) ≠ s.lastSelectedWeekRef
      · rw [if_pos h]
        exact normalizedWeekStart_getWeekStart d
      · rw [if_neg h]
        exact hs

/-- C8 witness: normalization evaluated at the sample initial state, after a
settle at offset 390 and after an external selection of 2024-07-04. -/
theorem anchor_week_start_normalized_witness :
    normalizedWeekStart (initState 390 none (mkDate 2024 6 2)).anchorWeekStart ∧
    normalizedWeekStart (handleScrollEnd state0 390).anchorWeekStart ∧
    normalizedWeekStart (selectionSync state0 (some (mkDate 2024 7 4))).anchorWeekStart :=
  ⟨(anchor_week_start_normalized 390 none (mkDate 2024 6 2) state0 390 none).1,
    (anchor_week_start_normalized 390 none (mkDate 2024 6 2) state0 390
      (some (mkDate 2024 7 4))).2.1 (by decide),
    (anchor_week_start_normalized 390 none (mkDate 2024 6 2) state0 390
      (some (mkDate 2024 7 4))).2.2 (by decide)⟩

end CalendarWeek
